import Mathlib

/-!
Shallow embedding of the export pipeline of `src/streamlit_app.py`
(fantasy-baseball roster exporter).  The embedding covers the code run
after a successful `League` construction: the per-team roster sheets,
the free-agent step (with its try/except boundary), the master sheet,
the column-width formatter, and the preview handed to the display layer.
Python statements are modelled atomically: a statement either completes
with its effect or raises with no effect of its own.
-/

namespace FantasyBaseball

/-- A provider `Player`: fields read by the script
(`player.name`, `player.proTeam`, `player.injuryStatus`, `player.eligibleSlots`). -/
structure Player where
  name : String
  proTeam : String
  injuryStatus : String
  eligibleSlots : List String
deriving DecidableEq, Repr

/-- A provider `Team`: fields read by the script (`team.team_name`, `team.roster`). -/
structure Team where
  team_name : String
  roster : List Player
deriving DecidableEq, Repr

/-- The flat row dictionary `player_info` built at lines 82-88:
keys "Player Name", "Fantasy Team", "Pro Team", "Injury Status", "Eligible Positions". -/
structure PlayerRecord where
  playerName : String
  fantasyTeam : String
  proTeam : String
  injuryStatus : String
  eligiblePositions : String
deriving DecidableEq, Repr

/-- `excluded_slots = {'UTIL','BE','IL','IF','LF','CF','RF','SP','RP'}` (line 71). -/
def excluded_slots : List String :=
  ["UTIL", "BE", "IL", "IF", "LF", "CF", "RF", "SP", "RP"]

/-- `[slot for slot in player.eligibleSlots if slot not in excluded_slots]`
(lines 81 and 106). -/
def clean_slots (slots : List String) : List String :=
  slots.filter (fun slot => slot ∉ excluded_slots)

/-- The `player_info` dict construction (lines 82-88 for rostered players,
lines 107-113 for free agents with label "Free Agent"):
`"Eligible Positions": ", ".join(clean_slots)`. -/
def player_info (teamLabel : String) (p : Player) : PlayerRecord :=
  { playerName := p.name
  , fantasyTeam := teamLabel
  , proTeam := p.proTeam
  , injuryStatus := p.injuryStatus
  , eligiblePositions := String.intercalate ", " (clean_slots p.eligibleSlots) }

/-- The five column headers of every populated sheet, in dict-key order. -/
def headers : List String :=
  ["Player Name", "Fantasy Team", "Pro Team", "Injury Status", "Eligible Positions"]

/-- One row of string cells, in the dict-key order of `player_info`. -/
def record_cells (r : PlayerRecord) : List String :=
  [r.playerName, r.fantasyTeam, r.proTeam, r.injuryStatus, r.eligiblePositions]

/-- A pandas `DataFrame` as used by the script: ordered column labels
plus rows of string-rendered cells. -/
structure Frame where
  columns : List String
  rows : List (List String)
deriving DecidableEq, Repr

/-- `pd.DataFrame(list_of_dicts)` (lines 92, 115, 123).  Every dict in the
script carries the same five keys in the same order, so the columns are the
five headers when the list is non-empty; `pd.DataFrame([])` has NO columns
at all (no headers). -/
def dataFrame (recs : List PlayerRecord) : Frame :=
  if recs.isEmpty then ⟨[], []⟩ else ⟨headers, recs.map record_cells⟩

/-- The cells of column `i` of a frame. -/
def column_cells (f : Frame) (i : Nat) : List String :=
  f.rows.map (fun row => row.getD i "")

/-- Body of `auto_adjust_column_width` for one column (lines 57-58):
`column_width = max(df[column].astype(str).map(len).max(), len(column))`,
then `width = column_width + 2`.  The script only ever reaches a column
when the frame has rows (an empty record list yields a column-less frame),
so the fold over cell lengths coincides with the pandas `.max()`. -/
def column_width (cells : List String) (header : String) : Nat :=
  max ((cells.map String.length).foldr max 0) header.length + 2

/-- `auto_adjust_column_width` across all columns of a frame (lines 53-58). -/
def sheet_widths (f : Frame) : List Nat :=
  (List.range f.columns.length).map
    (fun i => column_width (column_cells f i) (f.columns.getD i ""))

/-- `chr(65 + col_idx)` at line 58: the worksheet column letter. -/
def column_letter (i : Nat) : Char := Char.ofNat (65 + i)

/-- One emitted worksheet: name, tabular data, and the widths applied by
`auto_adjust_column_width` right after `to_excel`. -/
structure Sheet where
  sheet_name : String
  frame : Frame
  widths : List Nat
deriving DecidableEq, Repr

/-- `df.to_excel(writer, sheet_name=..., index=False)` followed by
`auto_adjust_column_width(writer, df, sheet_name)` (lines 94-95, 116-117,
126-127). -/
def emit_sheet (name : String) (recs : List PlayerRecord) : Sheet :=
  ⟨name, dataFrame recs, sheet_widths (dataFrame recs)⟩

/-- `re.sub(r'[\\/*?:\[\]]', '', team.team_name)` character class (line 93). -/
def illegal_chars : List Char := ['\\', '/', '*', '?', ':', '[', ']']

/-- `clean_sheet_name = re.sub(r'[\\/*?:\[\]]', '', team.team_name)[:31]`
(line 93): strip the seven illegal characters, keep the first 31 characters. -/
def clean_sheet_name (s : String) : String :=
  String.mk ((s.data.filter (fun c => c ∉ illegal_chars)).take 31)

/-- The `roster_data` list built for one team (lines 79-89): one
`player_info` per roster player, labelled with the team's name. -/
def roster_records (t : Team) : List PlayerRecord :=
  t.roster.map (player_info t.team_name)

/-- One iteration of the team loop (lines 78-95): build `roster_data`,
sanitize the sheet name, emit the sheet, adjust its widths. -/
def team_sheet (t : Team) : Sheet :=
  emit_sheet (clean_sheet_name t.team_name) (roster_records t)

/-- Outcome of the free-agent try block (lines 102-120).  `ok` is the
non-raising run; the three failure constructors mark which statement
raised: `league.free_agents(size=500)` (line 103), the mapping loop
(lines 105-113), or `df_fa.to_excel` (line 116).  A raising statement has
no effect of its own; the `except` clause catches at the block boundary. -/
inductive FAOutcome where
  | ok (players : List Player)
  | failFetch
  | failMap (players : List Player)
  | failEmit (players : List Player)
deriving DecidableEq, Repr

/-- The free-agent records `fa_data` (lines 104-113): each fetched player
mapped with the synthetic label "Free Agent". -/
def fa_records (players : List Player) : List PlayerRecord :=
  players.map (player_info "Free Agent")

/-- Effect of the free-agent step on the export: the optional "Free Agents"
sheet, the records `extend`ed onto `all_players_master_list` (line 118,
reached only when nothing raised), and whether `st.warning` ran (line 120). -/
structure FAResult where
  sheet : Option Sheet
  appended : List PlayerRecord
  warned : Bool
deriving DecidableEq, Repr

/-- The free-agent try/except block (lines 102-120).  On any raise the
except clause warns; `to_excel` (line 116) precedes `extend` (line 118),
so no failure path extends the master list, and no failure path leaves a
"Free Agents" sheet (the raising statement itself has no effect). -/
def fa_step : FAOutcome → FAResult
  | .ok ps => ⟨some (emit_sheet "Free Agents" (fa_records ps)), fa_records ps, false⟩
  | .failFetch => ⟨none, [], true⟩
  | .failMap _ => ⟨none, [], true⟩
  | .failEmit _ => ⟨none, [], true⟩

/-- Whether the free-agent step raised somewhere inside its try block. -/
def fa_failed : FAOutcome → Bool
  | .ok _ => false
  | _ => true

/-- Number of free agents actually fetched and kept: the size of the
returned pool on success, 0 on any failure. -/
def fa_count : FAOutcome → Nat
  | .ok ps => ps.length
  | _ => 0

/-- Non-decreasing order on rows by the "Player Name" column. -/
def byName (a b : PlayerRecord) : Prop := a.playerName ≤ b.playerName

instance : DecidableRel byName :=
  fun a b => inferInstanceAs (Decidable (a.playerName ≤ b.playerName))

/-- Contract of `df_all.sort_values(by="Player Name")` (line 125).  The
call uses the pandas default `kind='quicksort'`, which guarantees only
that the result is a permutation of the input ordered non-decreasing by
the sort key — NOT stability.  The embedding therefore quantifies over
any implementation satisfying this contract. -/
def SortValuesContract (f : List PlayerRecord → List PlayerRecord) : Prop :=
  ∀ l : List PlayerRecord, (f l).Perm l ∧ List.Sorted byName (f l)

/-- One concrete implementation satisfying `SortValuesContract`, used to
instantiate theorems on concrete inputs. -/
def insertionSortByName (l : List PlayerRecord) : List PlayerRecord :=
  List.insertionSort byName l

/-- The input a single export run reads from the provider: the teams with
their rosters, and the outcome of the free-agent step. -/
structure ExportInput where
  teams : List Team
  fa : FAOutcome
deriving DecidableEq, Repr

/-- Everything one export run hands to its collaborators: the roster
sheets in team order, the optional "Free Agents" sheet, the optional
"All Players Status" sheet, the final `all_players_master_list`, whether
a warning was surfaced, and the preview frame passed to `st.dataframe`
(line 137; `none` would mean the preview was omitted — the script never
omits it). -/
structure ExportResult where
  rosterSheets : List Sheet
  faSheet : Option Sheet
  masterSheet : Option Sheet
  master : List PlayerRecord
  warned : Bool
  preview : Option Frame
deriving DecidableEq, Repr

/-- The sheets of the final artifact, in the order they are written to the
`ExcelWriter`: per-team roster sheets, then "Free Agents" (if emitted),
then "All Players Status" (if emitted). -/
def ExportResult.sheets (r : ExportResult) : List Sheet :=
  r.rosterSheets ++ r.faSheet.toList ++ r.masterSheet.toList

/-- The main generation block (lines 61-137), parameterized by the actual
sort permutation `sortImpl` chosen by `sort_values` (see
`SortValuesContract`): process every team (lines 78-98) appending each
`player_info` to `all_players_master_list`, run the free-agent try block
(lines 100-120), build `df_all` and emit the master sheet only when
non-empty (lines 122-127), then hand `df_all` to `st.dataframe` (line 137,
unconditional). -/
def run_export (sortImpl : List PlayerRecord → List PlayerRecord)
    (inp : ExportInput) : ExportResult :=
  let rosterRecs := (inp.teams.map roster_records).flatten
  let fa := fa_step inp.fa
  let master := rosterRecs ++ fa.appended
  { rosterSheets := inp.teams.map team_sheet
  , faSheet := fa.sheet
  , masterSheet :=
      if master.isEmpty then none
      else some (emit_sheet "All Players Status" (sortImpl master))
  , master := master
  , warned := fa.warned
  , preview := some (dataFrame (if master.isEmpty then [] else sortImpl master)) }

/-! Concrete inputs used to instantiate the theorems. -/

/-- A rostered player with a non-empty name. -/
def alice : Player := ⟨"Alice", "NYY", "ACTIVE", ["1B", "UTIL"]⟩

/-- A team with a one-player roster. -/
def teamA : Team := ⟨"A", [alice]⟩

/-- A team with an empty roster. -/
def emptyTeam : Team := ⟨"B", []⟩

/-- An export whose free-agent fetch raises. -/
def faFailInput : ExportInput := ⟨[teamA], FAOutcome.failFetch⟩

/-- An export with no teams and a failing free-agent fetch: its master
list is empty. -/
def emptyInput : ExportInput := ⟨[], FAOutcome.failFetch⟩

/-- An export containing a provider player whose name is the empty string. -/
def unnamedInput : ExportInput := ⟨[⟨"T", [⟨"", "P", "ACTIVE", []⟩]⟩], FAOutcome.failFetch⟩

/-- Two distinct provider players sharing the player name "A". -/
def pA1 : Player := ⟨"A", "P1", "ACTIVE", []⟩

/-- Second player also named "A" (distinguishable by pro team). -/
def pA2 : Player := ⟨"A", "P2", "ACTIVE", []⟩

/-- A team rostering the two equal-named players, in order pA1 then pA2. -/
def exTeam : Team := ⟨"T", [pA1, pA2]⟩

/-- An export whose master list is the two equal-named records. -/
def exInput : ExportInput := ⟨[exTeam], FAOutcome.failFetch⟩

/-- The master list accumulated by `exInput`, in source order. -/
def exL : List PlayerRecord := [player_info "T" pA1, player_info "T" pA2]

/-- A sort implementation satisfying `SortValuesContract` (its output on
`exL` is the name-sorted permutation `[pA2, pA1]`) that does NOT preserve
the source order of equal-name records — permitted behavior for the
pandas default unstable quicksort. -/
def badSort (l : List PlayerRecord) : List PlayerRecord :=
  if l = exL then [player_info "T" pA2, player_info "T" pA1]
  else insertionSortByName l

/-- A record whose Pro Team cell is 10 characters long. -/
def wideRec : PlayerRecord := ⟨"N", "T", "0123456789", "A", ""⟩

/-! Helper lemmas shared by the claim theorems. -/

theorem foldr_max_mem (l : List Nat) (h : l ≠ []) : l.foldr max 0 ∈ l := by
  induction l with
  | nil => exact absurd rfl h
  | cons a t ih =>
    cases t with
    | nil => simp
    | cons b t2 =>
      have hfold : (a :: b :: t2).foldr max 0 = max a ((b :: t2).foldr max 0) := rfl
      rcases le_total a ((b :: t2).foldr max 0) with h1 | h1
      · rw [hfold, max_eq_right h1]
        exact List.mem_cons_of_mem _ (ih (by simp))
      · rw [hfold, max_eq_left h1]
        exact List.mem_cons_self _ _

theorem le_foldr_max (l : List Nat) (x : Nat) (hx : x ∈ l) : x ≤ l.foldr max 0 := by
  induction l with
  | nil => cases hx
  | cons a t ih =>
    rcases List.mem_cons.mp hx with h | h
    · subst h; exact le_max_left _ _
    · exact le_trans (ih h) (le_max_right _ _)

theorem insertionSortByName_contract : SortValuesContract insertionSortByName := by
  intro l
  constructor
  · exact List.perm_insertionSort byName l
  · haveI : IsTotal PlayerRecord byName := ⟨fun a b => le_total a.playerName b.playerName⟩
    haveI : IsTrans PlayerRecord byName := ⟨fun a b c h1 h2 => le_trans h1 h2⟩
    exact List.sorted_insertionSort byName l

theorem roster_flatten_length (teams : List Team) :
    ((teams.map roster_records).flatten).length =
      (teams.map (fun t => t.roster.length)).sum := by
  simp only [List.length_flatten, List.map_map]
  congr 1
  exact List.map_congr_left (fun t _ => by simp [roster_records])

theorem mem_roster_flatten {r : PlayerRecord} {teams : List Team}
    (hr : r ∈ (teams.map roster_records).flatten) :
    ∃ t ∈ teams, ∃ p ∈ t.roster, r = player_info t.team_name p := by
  rcases List.mem_flatten.mp hr with ⟨l, hl, hrl⟩
  rcases List.mem_map.mp hl with ⟨t, ht, rfl⟩
  rcases List.mem_map.mp hrl with ⟨p, hp, rfl⟩
  exact ⟨t, ht, p, hp, rfl⟩

theorem sheets_shape {sortImpl : List PlayerRecord → List PlayerRecord}
    {inp : ExportInput} {s : Sheet} (hs : s ∈ (run_export sortImpl inp).sheets) :
    ∃ nm recs, s = emit_sheet nm recs := by
  simp only [ExportResult.sheets, run_export, List.mem_append] at hs
  rcases hs with (hs | hs) | hs
  · rcases List.mem_map.mp hs with ⟨t, _, rfl⟩
    exact ⟨_, _, rfl⟩
  · cases hfa : inp.fa <;> rw [hfa] at hs <;> simp only [fa_step] at hs
    case ok ps =>
      simp only [Option.toList_some, List.mem_singleton] at hs
      exact ⟨_, _, hs⟩
    all_goals simp at hs
  · by_cases hm :
      (((inp.teams.map roster_records).flatten) ++ (fa_step inp.fa).appended).isEmpty
    · simp [hm] at hs
    · simp only [Bool.not_eq_true] at hm
      simp only [hm, Bool.false_eq_true, if_false, Option.toList_some,
        List.mem_singleton] at hs
      exact ⟨_, _, hs⟩

/-- C3: the Slot Filter keeps exactly the input tags outside the fixed
exclusion set, in input order (its output is a sublist of the input); it
is a pure total function, empty input yields empty output, and the tags
["1B", "UTIL", "BE"] filter to ["1B"]. -/
theorem slot_filter_spec :
    (∀ slots : List String,
      clean_slots slots = slots.filter (fun slot => slot ∉ excluded_slots) ∧
      (clean_slots slots).Sublist slots ∧
      (∀ s ∈ clean_slots slots, s ∈ slots ∧ s ∉ excluded_slots) ∧
      (∀ s ∈ slots, s ∉ excluded_slots → s ∈ clean_slots slots)) ∧
    clean_slots [] = [] ∧
    clean_slots ["1B", "UTIL", "BE"] = ["1B"] := by
  refine ⟨fun slots => ⟨rfl, List.filter_sublist _, ?_, ?_⟩, rfl, by decide⟩
  · intro s hs
    simpa only [clean_slots, List.mem_filter, decide_eq_true_eq] using hs
  · intro s hs hns
    simp only [clean_slots, List.mem_filter, decide_eq_true_eq]
    exact ⟨hs, hns⟩

theorem slot_filter_spec_witness :
    "1B" ∈ clean_slots ["1B", "UTIL", "BE"] ∧
    "1B" ∈ ["1B", "UTIL", "BE"] ∧ "1B" ∉ excluded_slots :=
  ⟨by decide, (slot_filter_spec.1 ["1B", "UTIL", "BE"]).2.2.1 "1B" (by decide)⟩

/-- C4: the Sheet Name Sanitizer removes every occurrence of the seven
characters backslash / * ? : [ ] and truncates to the first 31 characters
of the result; hence every output has length at most 31 and contains none
of those characters. -/
theorem sheet_name_sanitizer_spec (s : String) :
    clean_sheet_name s =
      String.mk ((s.data.filter (fun c => c ∉ illegal_chars)).take 31) ∧
    (clean_sheet_name s).length ≤ 31 ∧
    ∀ c ∈ (clean_sheet_name s).data, c ∉ illegal_chars := by
  refine ⟨rfl, ?_, ?_⟩
  · show ((s.data.filter (fun c => c ∉ illegal_chars)).take 31).length ≤ 31
    rw [List.length_take]
    exact min_le_left _ _
  · intro c hc
    have hc2 : c ∈ s.data.filter (fun c => c ∉ illegal_chars) :=
      List.take_subset _ _ hc
    simp only [List.mem_filter, decide_eq_true_eq] at hc2
    exact hc2.2

theorem sheet_name_sanitizer_spec_witness :
    clean_sheet_name "AB[C]/D:E*F?G" = "ABCDEFG" ∧
    (clean_sheet_name "AB[C]/D:E*F?G").length ≤ 31 ∧
    'A' ∉ illegal_chars :=
  ⟨by decide, (sheet_name_sanitizer_spec "AB[C]/D:E*F?G").2.1,
   (sheet_name_sanitizer_spec "AB[C]/D:E*F?G").2.2 'A' (by decide)⟩

/-- C7: for every emitted sheet and every column of its tabular data, the
applied width equals max(length of the longest string-rendered cell value
in the column, length of the column header) plus 2; in particular a column
whose longest cell is 10 characters under a 6-character header gets
width 12. -/
theorem column_width_formatter_spec (name : String) (recs : List PlayerRecord)
    (i : Nat) (hi : i < (emit_sheet name recs).frame.columns.length) :
    (∃ M, M ∈ (column_cells (emit_sheet name recs).frame i).map String.length ∧
      (∀ x ∈ (column_cells (emit_sheet name recs).frame i).map String.length, x ≤ M) ∧
      (emit_sheet name recs).widths[i]? =
        some (max M ((emit_sheet name recs).frame.columns.getD i "").length + 2)) ∧
    column_width ["0123456789"] "Header" = 12 := by
  refine ⟨?_, by decide⟩
  have hrecs : recs.isEmpty = false := by
    by_contra hcon
    simp only [Bool.not_eq_false] at hcon
    simp [emit_sheet, dataFrame, hcon] at hi
  have hframe : (emit_sheet name recs).frame = ⟨headers, recs.map record_cells⟩ := by
    simp [emit_sheet, dataFrame, hrecs]
  have hcellsne : (column_cells (emit_sheet name recs).frame i).map String.length ≠ [] := by
    rw [hframe]
    simp only [column_cells, ne_eq, List.map_eq_nil_iff]
    intro hcon
    subst hcon
    simp at hrecs
  refine ⟨((column_cells (emit_sheet name recs).frame i).map String.length).foldr max 0,
    foldr_max_mem _ hcellsne, le_foldr_max _, ?_⟩
  have hwidths : (emit_sheet name recs).widths =
      (List.range (emit_sheet name recs).frame.columns.length).map
        (fun j => column_width (column_cells (emit_sheet name recs).frame j)
          ((emit_sheet name recs).frame.columns.getD j "")) := rfl
  rw [hwidths, List.getElem?_map, List.getElem?_range hi]
  rfl

theorem column_width_formatter_spec_witness :
    ((∃ M, M ∈ (column_cells (emit_sheet "S" [wideRec]).frame 2).map String.length ∧
      (∀ x ∈ (column_cells (emit_sheet "S" [wideRec]).frame 2).map String.length, x ≤ M) ∧
      (emit_sheet "S" [wideRec]).widths[2]? =
        some (max M ((emit_sheet "S" [wideRec]).frame.columns.getD 2 "").length + 2)) ∧
     column_width ["0123456789"] "Header" = 12) ∧
    (emit_sheet "S" [wideRec]).widths[2]? = some 12 :=
  ⟨column_width_formatter_spec "S" [wideRec] 2 (by decide), by decide⟩

/-- C5 counterexample: a team with an empty roster yields
`pd.DataFrame([])`, which has NO columns at all, so the emitted sheet is
not header-only with the five PlayerRecord headers — it has zero headers. -/
theorem empty_roster_headers_counterexample :
    (run_export insertionSortByName ⟨[emptyTeam], FAOutcome.failFetch⟩).rosterSheets
      = [team_sheet emptyTeam] ∧
    (team_sheet emptyTeam).frame.columns = [] ∧
    (team_sheet emptyTeam).frame.rows = [] ∧
    headers.length = 5 ∧
    (team_sheet emptyTeam).frame.columns ≠ headers := by
  exact ⟨by decide, by decide, by decide, by decide, by decide⟩

/-- C5 amended: for every team with an empty roster, the Roster Sheet
Builder still emits one sheet at that team's position, but the sheet is
completely empty: zero data rows and zero columns, hence no headers
(`pd.DataFrame([])` carries no columns). -/
theorem empty_roster_team_sheet (sortImpl : List PlayerRecord → List PlayerRecord)
    (inp : ExportInput) (i : Nat) (hi : i < inp.teams.length)
    (h : inp.teams[i].roster = []) :
    (run_export sortImpl inp).rosterSheets[i]? =
      some (team_sheet inp.teams[i]) ∧
    (team_sheet inp.teams[i]).frame.columns = [] ∧
    (team_sheet inp.teams[i]).frame.rows = [] := by
  refine ⟨?_, ?_, ?_⟩
  · simp only [run_export]
    rw [List.getElem?_map, List.getElem?_eq_getElem hi]
    rfl
  · simp [team_sheet, emit_sheet, dataFrame, roster_records, h]
  · simp [team_sheet, emit_sheet, dataFrame, roster_records, h]

theorem empty_roster_team_sheet_witness :
    (run_export insertionSortByName ⟨[emptyTeam], FAOutcome.ok []⟩).rosterSheets[0]? =
      some (team_sheet emptyTeam) ∧
    (team_sheet emptyTeam).frame.columns = [] ∧
    (team_sheet emptyTeam).frame.rows = [] :=
  empty_roster_team_sheet insertionSortByName ⟨[emptyTeam], FAOutcome.ok []⟩ 0
    (by decide) (by decide)

/-- C6: when the accumulated master list is empty at the end of the export,
no "All Players Status" sheet is emitted, and this is not an error: the
export still completes, the final artifact holding exactly the roster
sheets plus the optional Free Agents sheet. -/
theorem empty_master_list_skips_sheet (sortImpl : List PlayerRecord → List PlayerRecord)
    (inp : ExportInput) (h : (run_export sortImpl inp).master = []) :
    (run_export sortImpl inp).masterSheet = none ∧
    (run_export sortImpl inp).sheets =
      inp.teams.map team_sheet ++ (fa_step inp.fa).sheet.toList := by
  have hm : ((inp.teams.map roster_records).flatten ++ (fa_step inp.fa).appended) = [] := by
    simpa [run_export] using h
  constructor
  · simp [run_export, hm]
  · simp [ExportResult.sheets, run_export, hm]

theorem empty_master_list_skips_sheet_witness :
    (run_export insertionSortByName emptyInput).masterSheet = none ∧
    (run_export insertionSortByName emptyInput).sheets =
      emptyInput.teams.map team_sheet ++ (fa_step emptyInput.fa).sheet.toList :=
  empty_master_list_skips_sheet insertionSortByName emptyInput (by decide)

/-- C1: whenever the free-agent step raises (in the provider call, the
mapping loop, or the sheet emission), the error is caught at the try/except
boundary: no Free Agents sheet is produced, the master accumulator still
holds exactly the roster records, a warning is surfaced, and the export
continues, producing every roster sheet and a master sheet built from
roster data alone. -/
theorem free_agent_failure_isolation (sortImpl : List PlayerRecord → List PlayerRecord)
    (inp : ExportInput) (h : fa_failed inp.fa = true) :
    (run_export sortImpl inp).faSheet = none ∧
    (run_export sortImpl inp).master = (inp.teams.map roster_records).flatten ∧
    (run_export sortImpl inp).warned = true ∧
    (run_export sortImpl inp).rosterSheets = inp.teams.map team_sheet ∧
    (run_export sortImpl inp).masterSheet =
      (if ((inp.teams.map roster_records).flatten).isEmpty then none
       else some (emit_sheet "All Players Status"
         (sortImpl ((inp.teams.map roster_records).flatten)))) := by
  cases hfa : inp.fa with
  | ok ps => rw [hfa] at h; simp [fa_failed] at h
  | failFetch => simp [run_export, fa_step, hfa]
  | failMap ps => simp [run_export, fa_step, hfa]
  | failEmit ps => simp [run_export, fa_step, hfa]

theorem free_agent_failure_isolation_witness :
    fa_failed faFailInput.fa = true ∧
    (run_export insertionSortByName faFailInput).faSheet = none ∧
    (run_export insertionSortByName faFailInput).master =
      (faFailInput.teams.map roster_records).flatten ∧
    (run_export insertionSortByName faFailInput).warned = true ∧
    (run_export insertionSortByName faFailInput).rosterSheets =
      faFailInput.teams.map team_sheet ∧
    (run_export insertionSortByName faFailInput).masterSheet =
      (if ((faFailInput.teams.map roster_records).flatten).isEmpty then none
       else some (emit_sheet "All Players Status"
         (insertionSortByName ((faFailInput.teams.map roster_records).flatten)))) :=
  ⟨by decide, free_agent_failure_isolation insertionSortByName faFailInput (by decide)⟩

theorem badSort_contract : SortValuesContract badSort := by
  intro l
  by_cases h : l = exL
  · subst h
    have hb : badSort exL = [player_info "T" pA2, player_info "T" pA1] := by
      simp [badSort]
    constructor
    · rw [hb]
      exact List.Perm.swap (player_info "T" pA1) (player_info "T" pA2) []
    · rw [hb]
      refine List.Pairwise.cons ?_ (List.pairwise_singleton _ _)
      intro b hb2
      rw [List.mem_singleton] at hb2
      subst hb2
      show (player_info "T" pA2).playerName ≤ (player_info "T" pA1).playerName
      exact le_refl _
  · have hb : badSort l = insertionSortByName l := by
      simp [badSort, h]
    rw [hb]
    exact insertionSortByName_contract l

/-- C2 counterexample: `sort_values` is invoked with the pandas default
`kind='quicksort'`, an unstable sort, so the code guarantees only a
name-sorted permutation.  A sort implementation satisfying exactly that
contract produces an "All Players Status" sheet in which the two
equal-name records of `exInput` appear in REVERSED source order, refuting
the stability conjunct of the claim. -/
theorem master_sheet_stability_counterexample :
    SortValuesContract badSort ∧
    (run_export badSort exInput).master = exL ∧
    (run_export badSort exInput).masterSheet =
      some (emit_sheet "All Players Status"
        [player_info "T" pA2, player_info "T" pA1]) ∧
    (player_info "T" pA1).playerName = (player_info "T" pA2).playerName ∧
    [player_info "T" pA2, player_info "T" pA1] ≠ exL :=
  ⟨badSort_contract, by decide, by decide, by decide, by decide⟩

/-- C2 amended: for every non-empty accumulated master list, the emitted
"All Players Status" sheet holds exactly the accumulated records (a
permutation — same row count, nothing dropped or duplicated) ordered
non-decreasing by Player Name; stability is NOT guaranteed (the sort kind
is the unstable pandas default), so equal-name records may appear out of
source order. -/
theorem master_sheet_sorted (sortImpl : List PlayerRecord → List PlayerRecord)
    (hs : SortValuesContract sortImpl) (inp : ExportInput)
    (h : (run_export sortImpl inp).master ≠ []) :
    (run_export sortImpl inp).masterSheet =
      some (emit_sheet "All Players Status"
        (sortImpl (run_export sortImpl inp).master)) ∧
    (sortImpl (run_export sortImpl inp).master).length =
      (run_export sortImpl inp).master.length ∧
    (sortImpl (run_export sortImpl inp).master).Perm
      (run_export sortImpl inp).master ∧
    List.Sorted byName (sortImpl (run_export sortImpl inp).master) := by
  have hm : ¬ ((inp.teams.map roster_records).flatten ++ (fa_step inp.fa).appended) = [] := by
    simpa [run_export] using h
  refine ⟨?_, ((hs _).1).length_eq, (hs _).1, (hs _).2⟩
  simp [run_export, hm]

theorem master_sheet_sorted_witness :
    (run_export insertionSortByName faFailInput).masterSheet =
      some (emit_sheet "All Players Status"
        (insertionSortByName (run_export insertionSortByName faFailInput).master)) ∧
    (insertionSortByName (run_export insertionSortByName faFailInput).master).length =
      (run_export insertionSortByName faFailInput).master.length ∧
    (insertionSortByName (run_export insertionSortByName faFailInput).master).Perm
      (run_export insertionSortByName faFailInput).master ∧
    List.Sorted byName
      (insertionSortByName (run_export insertionSortByName faFailInput).master) :=
  master_sheet_sorted insertionSortByName insertionSortByName_contract faFailInput
    (by decide)

/-- C8 counterexample: the script copies `player.name` into the record
unchecked, so a provider player whose name is the empty string yields a
master-list record with an empty Player Name, refuting the unconditional
non-empty-name conjunct (the size conjunct does hold on this input). -/
theorem master_list_empty_name_counterexample :
    (run_export insertionSortByName unnamedInput).master.length =
      (unnamedInput.teams.map (fun t => t.roster.length)).sum +
        fa_count unnamedInput.fa ∧
    ¬ (∀ r ∈ (run_export insertionSortByName unnamedInput).master,
        r.playerName ≠ "") :=
  ⟨by decide, by decide⟩

/-- C8 amended: at the end of every export the master accumulator holds
exactly (sum over teams of roster size) + (free agents fetched, 0 when the
free-agent step fails) records, and every record's Player Name is copied
verbatim from the provider player's name — hence non-empty provided every
provider name (roster and fetched free agents) is non-empty. -/
theorem master_list_invariant (sortImpl : List PlayerRecord → List PlayerRecord)
    (inp : ExportInput)
    (hteams : ∀ t ∈ inp.teams, ∀ p ∈ t.roster, p.name ≠ "")
    (hfa : ∀ ps, inp.fa = FAOutcome.ok ps → ∀ p ∈ ps, p.name ≠ "") :
    (run_export sortImpl inp).master.length =
      (inp.teams.map (fun t => t.roster.length)).sum + fa_count inp.fa ∧
    ∀ r ∈ (run_export sortImpl inp).master, r.playerName ≠ "" := by
  have hmaster : (run_export sortImpl inp).master =
      (inp.teams.map roster_records).flatten ++ (fa_step inp.fa).appended := rfl
  constructor
  · rw [hmaster, List.length_append, roster_flatten_length]
    congr 1
    cases hfa2 : inp.fa <;> simp [fa_step, fa_records, fa_count]
  · intro r hr
    rw [hmaster, List.mem_append] at hr
    rcases hr with hr | hr
    · rcases mem_roster_flatten hr with ⟨t, ht, p, hp, rfl⟩
      exact hteams t ht p hp
    · cases hfa2 : inp.fa with
      | ok ps =>
        rw [hfa2] at hr
        simp only [fa_step, fa_records] at hr
        rcases List.mem_map.mp hr with ⟨p, hp, rfl⟩
        exact hfa ps hfa2 p hp
      | failFetch => rw [hfa2] at hr; simp [fa_step] at hr
      | failMap ps => rw [hfa2] at hr; simp [fa_step] at hr
      | failEmit ps => rw [hfa2] at hr; simp [fa_step] at hr

theorem master_list_invariant_witness :
    (run_export insertionSortByName faFailInput).master.length =
      (faFailInput.teams.map (fun t => t.roster.length)).sum +
        fa_count faFailInput.fa ∧
    ∀ r ∈ (run_export insertionSortByName faFailInput).master,
      r.playerName ≠ "" :=
  master_list_invariant insertionSortByName faFailInput (by decide)
    (by intro ps hps; cases hps)

/-- C9 counterexample: `st.dataframe(df_all)` runs unconditionally, so on
an export whose master list is empty a preview — an empty table — is still
displayed, refuting "no preview table is displayed". -/
theorem preview_not_omitted_counterexample :
    (run_export insertionSortByName emptyInput).master = [] ∧
    (run_export insertionSortByName emptyInput).preview ≠ none ∧
    (run_export insertionSortByName emptyInput).preview = some (dataFrame []) :=
  ⟨by decide, by decide, by decide⟩

/-- C9 amended: the preview handed to the display layer is always present
(the `st.dataframe` call is unconditional): it shows the name-sorted
master record list when the master list is non-empty, and an empty table
— not an omitted one — when the master list is empty. -/
theorem preview_always_displayed (sortImpl : List PlayerRecord → List PlayerRecord)
    (inp : ExportInput) :
    (run_export sortImpl inp).preview ≠ none ∧
    ((run_export sortImpl inp).master = [] →
      (run_export sortImpl inp).preview = some (dataFrame [])) ∧
    ((run_export sortImpl inp).master ≠ [] →
      (run_export sortImpl inp).preview =
        some (dataFrame (sortImpl (run_export sortImpl inp).master))) := by
  refine ⟨by simp [run_export], ?_, ?_⟩
  · intro h
    have hm : ((inp.teams.map roster_records).flatten ++ (fa_step inp.fa).appended) = [] := by
      simpa [run_export] using h
    simp [run_export, hm]
  · intro h
    have hm : ¬ ((inp.teams.map roster_records).flatten ++ (fa_step inp.fa).appended) = [] := by
      simpa [run_export] using h
    simp [run_export, hm]

theorem preview_always_displayed_witness :
    (run_export insertionSortByName emptyInput).preview ≠ none ∧
    (run_export insertionSortByName emptyInput).preview = some (dataFrame []) :=
  ⟨(preview_always_displayed insertionSortByName emptyInput).1,
   (preview_always_displayed insertionSortByName emptyInput).2.1 (by decide)⟩

/-- C10: every sheet handed to the column-width formatter has at most 5
columns (the five PlayerRecord fields, or zero columns for an empty record
list), so the single-letter addressing chr(65 + col_idx) always yields a
letter in A..E and never runs past Z. -/
theorem column_letter_safe (sortImpl : List PlayerRecord → List PlayerRecord)
    (inp : ExportInput) (s : Sheet) (hs : s ∈ (run_export sortImpl inp).sheets)
    (i : Nat) (hi : i < s.frame.columns.length) :
    s.frame.columns.length ≤ 5 ∧ column_letter i ∈ ['A', 'B', 'C', 'D', 'E'] := by
  rcases sheets_shape hs with ⟨nm, recs, rfl⟩
  have hcols : (emit_sheet nm recs).frame.columns.length ≤ 5 := by
    simp only [emit_sheet, dataFrame]
    by_cases h : recs.isEmpty <;> simp [h, headers]
  refine ⟨hcols, ?_⟩
  have hi5 : i < 5 := lt_of_lt_of_le hi hcols
  interval_cases i <;> decide

theorem column_letter_safe_witness :
    (team_sheet teamA).frame.columns.length ≤ 5 ∧
    column_letter 0 ∈ ['A', 'B', 'C', 'D', 'E'] := by
  have h0 : team_sheet teamA ∈ (run_export insertionSortByName faFailInput).rosterSheets := by
    decide
  exact column_letter_safe insertionSortByName faFailInput (team_sheet teamA)
    (List.mem_append_left _ (List.mem_append_left _ h0)) 0 (by decide)

end FantasyBaseball
